import Mathlib

/-
  Shallow embedding of the Ethio bingo server (Deno/TypeScript):
  - game-manager (src/unnamed/part_000): Game, GamePlayer, GameSettings,
    GameManager operations (createGame, startGame, callNumber, markNumber,
    board generation, win-pattern evaluation).
  - server.ts: RoomManager (Room, Player, createRoom, joinRoom,
    addPlayerToRoom, removePlayerFromRoom, getWinPatterns) and the
    HTTP / WebSocket command dispatch.

  Modelling conventions:
  - JS Map is an association list (insertion order preserved; set replaces
    in place, keeping position, or appends).
  - JS Set of numbers is a dedup-on-append list when insertion order can
    matter (board generation) and a Finset when only membership matters
    (marked numbers).
  - JS numbers carrying game values are Int; Math.random outputs are an
    oracle stream of rationals; Math.sin-based seeding is abstracted by an
    oracle s01 giving the value of seededRandom at a given seed.
  - while-loops become fuel-indexed recursions returning Option (none
    models non-termination within the given fuel).
  - Date.now() and uuid v4 values are oracle arguments; they never
    influence control flow in the modelled code.
-/

namespace EthioBingo

/-- JS Map get: first entry with the given key. -/
def mapGet {α : Type} (m : List (String × α)) (k : String) : Option α :=
  (m.find? (fun p => p.1 == k)).map Prod.snd

/-- JS Map set: replace in place if the key exists (keys are unique in
every map built here), else append. -/
def mapSet {α : Type} : List (String × α) → String → α → List (String × α)
  | [], k, v => [(k, v)]
  | a :: t, k, v => if a.1 == k then (k, v) :: t else a :: mapSet t k v

/-- JS Map delete. -/
def mapDelete {α : Type} (m : List (String × α)) (k : String) :
    List (String × α) :=
  m.filter (fun p => !(p.1 == k))

/-- JS Set.add on a number set kept as an insertion-ordered dedup list. -/
def setAdd (l : List Int) (v : Int) : List Int :=
  if v ∈ l then l else l ++ [v]

/-- game-manager GameSettings. -/
structure GameSettings where
  stake : Int
  autoCall : Bool
  callInterval : Nat
  winPatterns : List String
deriving DecidableEq

/-- game-manager GamePlayer. -/
structure GamePlayer where
  id : String
  name : String
  board : List Int
  markedNumbers : Finset Int
  isReady : Bool
  hasWon : Bool
  winTime : Option Nat
  score : Int
deriving DecidableEq

/-- game-manager Game. -/
structure Game where
  id : String
  roomCode : String
  type : String
  players : List (String × GamePlayer)
  calledNumbers : List Int
  currentNumber : Option Int
  gameStarted : Bool
  gameEnded : Bool
  winner : Option String
  winPattern : Option String
  boardSeed : Nat
  settings : GameSettings
deriving DecidableEq

/-- GameManager.createGame: gameId and boardSeed come from oracles
(uuid v4, Math.random). -/
def createGame (roomCode gameType : String) (settings : GameSettings)
    (gameId : String) (seed : Nat) : Game :=
  { id := gameId, roomCode := roomCode, type := gameType, players := [],
    calledNumbers := [], currentNumber := none, gameStarted := false,
    gameEnded := false, winner := none, winPattern := none,
    boardSeed := seed, settings := settings }

/-- GameManager.calculateScore: Math.floor(pot * 0.8) in exact arithmetic. -/
def calculateScore (stake : Int) (playerCount : Nat) : Int :=
  ⌊((stake * playerCount : Int) : ℚ) * (4 / 5)⌋

/-- GameManager.boardToGrid: row-major 5x5 reshape; out-of-range and zero
cells both become 0 (board[i] || 0). -/
def boardToGrid (board : List Int) : List (List Int) :=
  (List.range 5).map (fun r => (List.range 5).map
    (fun c => board.getD (5 * r + c) 0))

/-- Cell access grid[r][c] (grids built by boardToGrid are always 5x5). -/
def cell (grid : List (List Int)) (r c : Nat) : Int :=
  (grid.getD r []).getD c 0

/-- GameManager.checkPattern: evaluates one named pattern over the grid
and the marked set; unrecognized names fall to the default branch. -/
def checkPattern (grid : List (List Int)) (marked : Finset Int)
    (pattern : String) : Bool :=
  match pattern with
  | "row" =>
      (List.range 5).any (fun row =>
        (List.range 5).all (fun col =>
          (row == 2 && col == 2) || decide (cell grid row col ∈ marked)))
  | "column" =>
      (List.range 5).any (fun col =>
        (List.range 5).all (fun row =>
          (row == 2 && col == 2) || decide (cell grid row col ∈ marked)))
  | "diagonal" =>
      ((List.range 5).all (fun i =>
        (i == 2) || decide (cell grid i i ∈ marked))) ||
      ((List.range 5).all (fun i =>
        (i == 2) || decide (cell grid i (4 - i) ∈ marked)))
  | "four-corners" =>
      decide (cell grid 0 0 ∈ marked) && decide (cell grid 0 4 ∈ marked) &&
      decide (cell grid 4 0 ∈ marked) && decide (cell grid 4 4 ∈ marked)
  | "full-house" =>
      (List.range 5).all (fun row =>
        (List.range 5).all (fun col =>
          (row == 2 && col == 2) || decide (cell grid row col ∈ marked)))
  | _ => false

/-- GameManager.checkForWin: first enabled pattern that matches. -/
def checkForWin (board : List Int) (marked : Finset Int)
    (winPatterns : List String) : Option String :=
  let grid := boardToGrid board
  winPatterns.find? (fun p => checkPattern grid marked p)

/-- GameManager.markNumber restricted to one game (the map lookup of the
room code is handled by the caller as in the source; a missing game gives
false with no change, like the missing-player branch). The now argument
is the Date.now() oracle. Note: the source checks gameStarted but not
gameEnded. -/
def markNumber (now : Nat) (g : Game) (playerId : String) (number : Int) :
    Bool × Game :=
  if !g.gameStarted then (false, g)
  else
    match mapGet g.players playerId with
    | none => (false, g)
    | some player =>
      let pl1 := { player with
        markedNumbers := insert number player.markedNumbers }
      match checkForWin pl1.board pl1.markedNumbers
          g.settings.winPatterns with
      | some wp =>
        let pl2 := { pl1 with
          hasWon := true
          winTime := some now
          score := pl1.score +
            calculateScore g.settings.stake g.players.length }
        (true, { g with
          winner := some playerId
          winPattern := some wp
          gameEnded := true
          players := mapSet g.players playerId pl2 })
      | none => (true, { g with players := mapSet g.players playerId pl1 })

/-- The maxNumber switch of GameManager.generateRandomNumber. -/
def maxNumberFor (gameType : String) : Int :=
  match gameType with
  | "75ball" => 75
  | "pattern" => 75
  | "90ball" => 90
  | "30ball" => 30
  | _ => 75

/-- The do-while rejection loop of generateRandomNumber: u is the
Math.random oracle stream, k the index of the next draw, fuel bounds the
number of iterations (none models running out of fuel). -/
def drawLoop (u : Nat → ℚ) (maxN : Int) (called : List Int) :
    Nat → Nat → Option Int
  | 0, _ => none
  | fuel + 1, k =>
    let n : Int := ⌊u k * (maxN : ℚ)⌋ + 1
    if n ∈ called then drawLoop u maxN called fuel (k + 1) else some n

/-- GameManager.generateRandomNumber: null once calledNumbers.length has
reached the variant maximum, else rejection-sample a fresh number. -/
def generateRandomNumber (u : Nat → ℚ) (fuel : Nat) (gameType : String)
    (called : List Int) : Option Int :=
  let maxN := maxNumberFor gameType
  if maxN ≤ (called.length : Int) then none
  else drawLoop u maxN called fuel 0

/-- GameManager.callNumber restricted to one game: null when the game is
missing, not started, or ended; otherwise draw, record and return. -/
def callNumber (u : Nat → ℚ) (fuel : Nat) (g : Game) : Option Int × Game :=
  if !g.gameStarted || g.gameEnded then (none, g)
  else
    match generateRandomNumber u fuel g.type g.calledNumbers with
    | none => (none, g)
    | some n =>
      (some n, { g with
        currentNumber := some n
        calledNumbers := g.calledNumbers ++ [n] })

/-- The while (numbers.size < target) numbers.add(next()) loop of board
generation, with the JS Set kept as an insertion-ordered dedup list and
next k the value produced by the k-th call of the random closure. -/
def fillLoop (next : Nat → Int) (target : Nat) :
    Nat → Nat → List Int → Option (List Int)
  | 0, _, s => if s.length < target then none else some s
  | fuel + 1, k, s =>
    if s.length < target then
      fillLoop next target fuel (k + 1) (setAdd s (next k))
    else some s

/-- The five column ranges of generate75BallBoard. -/
def columns75 : List (Int × Int) :=
  [(1, 15), (16, 30), (31, 45), (46, 60), (61, 75)]

/-- The nine column ranges of generate90BallBoard. -/
def columns90 : List (Int × Int) :=
  [(1, 10), (11, 20), (21, 30), (31, 40), (41, 50),
   (51, 60), (61, 70), (71, 80), (81, 90)]

/-- Column loop of generate75BallBoard: 5 distinct values per column,
sorted ascending, concatenated in column order. The random closure of
the source returns the same value on every call with the same arguments
(seededRandom increments only its local copy of seed), which the
constant function passed to fillLoop reflects. -/
def gen75Cols (rand : Int → Int → Int) (fuel : Nat) :
    List (Int × Int) → Option (List Int)
  | [] => some []
  | (mi, ma) :: rest =>
    match fillLoop (fun _ => rand mi ma) 5 fuel 0 [] with
    | none => none
    | some nums =>
      match gen75Cols rand fuel rest with
      | none => none
      | some b => some (List.insertionSort (· ≤ ·) nums ++ b)

/-- GameManager.generate75BallBoard. -/
def generate75BallBoard (rand : Int → Int → Int) (fuel : Nat) :
    Option (List Int) :=
  gen75Cols rand fuel columns75

/-- Column loop of generate90BallBoard: per column, count = random(1,3)
values, not sorted (insertion order of the JS Set). -/
def gen90Cols (rand : Int → Int → Int) (fuel : Nat) :
    List (Int × Int) → Option (List Int)
  | [] => some []
  | (mi, ma) :: rest =>
    let count := rand 1 3
    match fillLoop (fun _ => rand mi ma) count.toNat fuel 0 [] with
    | none => none
    | some nums =>
      match gen90Cols rand fuel rest with
      | none => none
      | some b => some (nums ++ b)

/-- GameManager.generate90BallBoard. -/
def generate90BallBoard (rand : Int → Int → Int) (fuel : Nat) :
    Option (List Int) :=
  gen90Cols rand fuel columns90

/-- GameManager.generate30BallBoard: 9 distinct values from 1..30,
sorted ascending. -/
def generate30BallBoard (rand : Int → Int → Int) (fuel : Nat) :
    Option (List Int) :=
  (fillLoop (fun _ => rand 1 30) 9 fuel 0 []).map
    (List.insertionSort (· ≤ ·))

/-- GameManager.generatePatternBoard delegates to generate75BallBoard. -/
def generatePatternBoard (rand : Int → Int → Int) (fuel : Nat) :
    Option (List Int) :=
  generate75BallBoard rand fuel

/-- GameManager.generateBoard: the random(min, max) closure captures the
seed argument, which never changes during one call (seededRandom does
seed++ on its own by-value parameter), so random is a pure function of
(min, max); s01 seed abstracts the value seededRandom(seed) returns
(the fractional part of Math.sin(seed) * 10000). -/
def generateBoard (s01 : Nat → ℚ) (gameType : String) (seed : Nat)
    (fuel : Nat) : Option (List Int) :=
  let rand : Int → Int → Int :=
    fun mi ma => ⌊s01 seed * ((ma - mi + 1 : Int) : ℚ)⌋ + mi
  match gameType with
  | "75ball" => generate75BallBoard rand fuel
  | "90ball" => generate90BallBoard rand fuel
  | "30ball" => generate30BallBoard rand fuel
  | "pattern" => generatePatternBoard rand fuel
  | _ => generate75BallBoard rand fuel

/-- startGame result shape: success with the echoed board, or an error
message. -/
inductive StartResult where
  | ok (board : List Int)
  | err (msg : String)
deriving DecidableEq

/-- The per-player board assignment loop of GameManager.startGame. -/
def assignBoards (s01 : Nat → ℚ) (gameType : String) (seed fuel : Nat) :
    List (String × GamePlayer) → Option (List (String × GamePlayer))
  | [] => some []
  | (pid, p) :: rest =>
    match generateBoard s01 gameType seed fuel with
    | none => none
    | some b =>
      (assignBoards s01 gameType seed fuel rest).map
        (fun r => (pid, { p with board := b, markedNumbers := ∅ }) :: r)

/-- GameManager.startGame at the games-map level: lookup, guard order as
in the source (missing, already started, fewer than 2 players), then
board generation for every player plus one confirmation board; none
models the call not returning because board generation does not
terminate. -/
def startGameM (s01 : Nat → ℚ) (fuel : Nat)
    (games : List (String × Game)) (roomCode : String) :
    Option (StartResult × List (String × Game)) :=
  match mapGet games roomCode with
  | none => some (StartResult.err "Game not found", games)
  | some g =>
    if g.gameStarted then
      some (StartResult.err "Game already started", games)
    else if g.players.length < 2 then
      some (StartResult.err "Need at least 2 players to start", games)
    else
      let g1 := { g with gameStarted := true }
      match assignBoards s01 g1.type g1.boardSeed fuel g1.players with
      | none => none
      | some players1 =>
        match generateBoard s01 g1.type g1.boardSeed fuel with
        | none => none
        | some b =>
          some (StartResult.ok b,
            mapSet games roomCode { g1 with players := players1 })

/-- server.ts Room settings block. -/
structure RoomSettings where
  autoCallNumbers : Bool
  callInterval : Nat
  winPatterns : List String
deriving DecidableEq

/-- server.ts Player (the socket handle is owned by the connection layer
and carries no game state, so it is omitted). -/
structure Player where
  id : String
  name : String
  isHost : Bool
  isReady : Bool
  score : Int
  board : Option (List Int)
deriving DecidableEq

/-- server.ts Room. -/
structure Room where
  id : String
  code : String
  name : String
  hostId : String
  hostName : String
  gameType : String
  stake : Int
  maxPlayers : Int
  players : List (String × Player)
  gameStarted : Bool
  createdAt : Nat
  settings : RoomSettings
deriving DecidableEq

/-- RoomManager.getWinPatterns: per-variant enabled pattern names, with
the 75ball list as the default. -/
def getWinPatterns (gameType : String) : List String :=
  match gameType with
  | "75ball" => ["row", "column", "diagonal", "four-corners", "full-house"]
  | "90ball" => ["one-line", "two-lines", "full-house"]
  | "30ball" => ["full-house"]
  | "pattern" => ["x-pattern", "frame", "postage-stamp", "small-diamond"]
  | _ => ["row", "column", "diagonal", "four-corners", "full-house"]

/-- The mutable fields of RoomManager: the rooms map and the live room
code set (insertion-ordered list, deduplicated by construction). -/
structure RoomsState where
  rooms : List (String × Room)
  roomCodes : List String
deriving DecidableEq

/-- Request body of createRoom. -/
structure CreateRoomData where
  hostName : String
  roomName : String
  maxPlayers : Int
  gameType : String
  stake : Int
deriving DecidableEq

/-- Response of createRoom. -/
structure CreateRoomResult where
  success : Bool
  roomCode : String
  roomId : String
  playerId : String
  message : String
deriving DecidableEq

/-- RoomManager.createRoom: roomId, roomCode and playerId come from the
uuid / generateRoomCode oracles and now from Date.now(); hostId is set
to the roomId placeholder (the source comment says it will be updated
when the host connects). No input validation is performed. -/
def createRoom (st : RoomsState) (data : CreateRoomData)
    (roomId roomCode playerId : String) (now : Nat) :
    CreateRoomResult × RoomsState :=
  let room : Room :=
    { id := roomId
      code := roomCode
      name := data.roomName
      hostId := roomId
      hostName := data.hostName
      gameType := data.gameType
      stake := data.stake
      maxPlayers := data.maxPlayers
      players := []
      gameStarted := false
      createdAt := now
      settings :=
        { autoCallNumbers := true
          callInterval := 7000
          winPatterns := getWinPatterns data.gameType } }
  ({ success := true
     roomCode := roomCode
     roomId := roomId
     playerId := playerId
     message := "Room created successfully" },
   { st with
     rooms := mapSet st.rooms roomCode room
     roomCodes := st.roomCodes ++ [roomCode] })

/-- RoomManager.addPlayerToRoom: the host-promotion branch requires the
room to be empty and hostId to be falsy (the empty string, since JS
string falsiness is emptiness); the new player is host iff their id
equals hostId. -/
def addPlayerToRoom (st : RoomsState) (roomCode playerId : String) :
    RoomsState :=
  match mapGet st.rooms roomCode with
  | none => st
  | some room =>
    let room1 :=
      if room.players.length == 0 && room.hostId == "" then
        { room with hostId := playerId }
      else room
    let player : Player :=
      { id := playerId
        name := "Player " ++ toString (room1.players.length + 1)
        isHost := playerId == room1.hostId
        isReady := false
        score := 0
        board := none }
    let room2 := { room1 with
      players := mapSet room1.players playerId player }
    { st with rooms := mapSet st.rooms roomCode room2 }

/-- RoomManager.removePlayerFromRoom: delete the player, reassign host
to the earliest-joined survivor when the host left, delete the room and
release its code when it empties. -/
def removePlayerFromRoom (st : RoomsState) (roomCode playerId : String) :
    RoomsState :=
  match mapGet st.rooms roomCode with
  | none => st
  | some room =>
    let players := mapDelete room.players playerId
    let room1 :=
      if playerId == room.hostId && 0 < players.length then
        match players with
        | [] => { room with players := players }
        | (pid, p) :: rest =>
          { room with
            players := (pid, { p with isHost := true }) :: rest
            hostId := pid
            hostName := p.name }
      else { room with players := players }
    if room1.players.length == 0 then
      { rooms := mapDelete st.rooms roomCode
        roomCodes := st.roomCodes.filter (fun c => !(c == roomCode)) }
    else { st with rooms := mapSet st.rooms roomCode room1 }

/-- The whole in-memory server state: the RoomManager fields plus the
GameManager games map (onlinePlayers tracks ids only and no claim
touches it). -/
structure SystemState where
  roomsSt : RoomsState
  games : List (String × Game)
deriving DecidableEq

/-- The inbound commands of server.ts: the API routes of handleApi and
the WebSocket messages of handleWsConnection (plus disconnect cleanup
and a tick of the periodic cleanupOldGames sweep). Oracle values
consumed by a handler (uuids, generated room code, time) travel with
the command. -/
inductive Command where
  | apiCreateRoom (data : CreateRoomData)
      (roomId roomCode playerId : String) (now : Nat)
  | apiJoinRoom (roomCode playerName : String)
  | apiGameStart (roomCode : String)
  | apiPlayers
  | apiRooms
  | apiRoomInfo (roomCode : String)
  | wsJoin (roomCode playerId : String)
  | wsLeave (roomCode playerId : String)
  | wsChat (roomCode : String)
  | wsStartGame (roomCode playerId : String)
  | wsCallNumber (roomCode : String)
  | wsMarkNumber (roomCode playerId : String) (number : Int)
  | wsClaimWin (roomCode playerId : String)
  | wsPing
  | wsDisconnect (roomCode playerId : String)
  | timerCleanup
deriving DecidableEq

/-- One dispatch step of server.ts. Reads (players list, room listing,
room lookup, joinRoom reservation) and pure broadcasts (chat,
gameStarted, numberCalled, playerMarked, winner, pong) do not touch
core state; only join/leave/disconnect mutate the rooms and only the
game-start API route reaches the GameManager. createRoom commands carry
the code chosen by the generateRoomCode retry loop, which is always
fresh among live codes (none models the impossible stale choice). -/
def step (s01 : Nat → ℚ) (fuel : Nat) (st : SystemState) :
    Command → Option SystemState
  | Command.apiCreateRoom data roomId roomCode playerId now =>
    if roomCode ∈ st.roomsSt.roomCodes then none
    else some { st with
      roomsSt := (createRoom st.roomsSt data roomId roomCode playerId now).2 }
  | Command.apiGameStart roomCode =>
    (startGameM s01 fuel st.games roomCode).map
      (fun r => { st with games := r.2 })
  | Command.wsJoin roomCode playerId =>
    some { st with roomsSt := addPlayerToRoom st.roomsSt roomCode playerId }
  | Command.wsLeave roomCode playerId =>
    some { st with
      roomsSt := removePlayerFromRoom st.roomsSt roomCode playerId }
  | Command.wsDisconnect roomCode playerId =>
    some { st with
      roomsSt := removePlayerFromRoom st.roomsSt roomCode playerId }
  | Command.apiJoinRoom _ _ => some st
  | Command.apiPlayers => some st
  | Command.apiRooms => some st
  | Command.apiRoomInfo _ => some st
  | Command.wsChat _ => some st
  | Command.wsStartGame _ _ => some st
  | Command.wsCallNumber _ => some st
  | Command.wsMarkNumber _ _ _ => some st
  | Command.wsClaimWin _ _ => some st
  | Command.wsPing => some st
  | Command.timerCleanup =>
    let live := st.games.filter
      (fun p => !(p.2.gameEnded && p.2.players.length == 0))
    some { st with games := live }

/-- The empty state the server boots with. -/
def initState : SystemState :=
  { roomsSt := { rooms := [], roomCodes := [] }, games := [] }

/-- Run a command sequence from a state. -/
def run (s01 : Nat → ℚ) (fuel : Nat) :
    List Command → SystemState → Option SystemState
  | [], st => some st
  | c :: cs, st => (step s01 fuel st c).bind (run s01 fuel cs)

/-- A sequence of markNumber calls, each given as (now, playerId,
number). -/
def applyMarks : Game → List (Nat × String × Int) → Game
  | g, [] => g
  | g, m :: ms => applyMarks (markNumber m.1 g m.2.1 m.2.2).2 ms

/-
  Concrete instances used by the claim scenarios.
-/

/-- A 25-cell board holding 1..25; its row-major grid has row 0 equal to
1..5 (markNumber never validates board contents, so any concrete board
serves the scenarios). -/
def boardSeq : List Int := (List.range 25).map (fun i => (i : Int) + 1)

/-- 75ball settings as a room would configure them. -/
def settings75 : GameSettings :=
  { stake := 100, autoCall := true, callInterval := 7000,
    winPatterns := getWinPatterns "75ball" }

/-- The player recorded as winner of the already-ended round. -/
def pl1E : GamePlayer :=
  { id := "p1", name := "A", board := boardSeq, markedNumbers := ∅,
    isReady := false, hasWon := true, winTime := some 0, score := 160 }

/-- A second player one mark away from completing row 0. -/
def pl2E : GamePlayer :=
  { id := "p2", name := "B", board := boardSeq,
    markedNumbers := {1, 2, 4, 5}, isReady := false, hasWon := false,
    winTime := none, score := 0 }

/-- An ended 75ball round: p1 already recorded as winner with row. -/
def endedGame : Game :=
  { id := "g1", roomCode := "r1", type := "75ball",
    players := [("p1", pl1E), ("p2", pl2E)],
    calledNumbers := [1, 2, 4, 5], currentNumber := some 5,
    gameStarted := true, gameEnded := true, winner := some "p1",
    winPattern := some "row", boardSeed := 7, settings := settings75 }

/-- A player one mark away from row 0 in a round with no calls yet. -/
def plQ : GamePlayer :=
  { id := "q", name := "Q", board := boardSeq,
    markedNumbers := {1, 2, 4, 5}, isReady := false, hasWon := false,
    winTime := none, score := 0 }

/-- A second registered player of that round. -/
def plR : GamePlayer :=
  { id := "r", name := "R", board := boardSeq, markedNumbers := ∅,
    isReady := false, hasWon := false, winTime := none, score := 0 }

/-- A started 75ball round in which no number was ever called. -/
def uncalledGame : Game :=
  { id := "g2", roomCode := "r2", type := "75ball",
    players := [("q", plQ), ("r", plR)], calledNumbers := [],
    currentNumber := none, gameStarted := true, gameEnded := false,
    winner := none, winPattern := none, boardSeed := 3,
    settings := settings75 }

/-- A player of the pattern-variant round. -/
def plP : GamePlayer :=
  { id := "pp", name := "P", board := boardSeq, markedNumbers := ∅,
    isReady := false, hasWon := false, winTime := none, score := 0 }

/-- A started round whose enabled win patterns are the pattern-variant
list. -/
def patternGame : Game :=
  { id := "g3", roomCode := "r3", type := "pattern",
    players := [("pp", plP)], calledNumbers := [], currentNumber := none,
    gameStarted := true, gameEnded := false, winner := none,
    winPattern := none, boardSeed := 5,
    settings := { stake := 50, autoCall := true, callInterval := 7000,
                  winPatterns := getWinPatterns "pattern" } }

/-- The full 30ball range 1..30 as a called-numbers sequence. -/
def calledAll30 : List Int := (List.range 30).map (fun i => (i : Int) + 1)

/-- A started 30ball round whose whole range has been called. -/
def exhaustedGame : Game :=
  { id := "g4", roomCode := "r4", type := "30ball", players := [],
    calledNumbers := calledAll30, currentNumber := some 30,
    gameStarted := true, gameEnded := false, winner := none,
    winPattern := none, boardSeed := 1,
    settings := { stake := 0, autoCall := true, callInterval := 7000,
                  winPatterns := getWinPatterns "30ball" } }

/-- A registered player before round start (board empty, as
addPlayerToGame creates it). -/
def plA : GamePlayer :=
  { id := "a", name := "A", board := [], markedNumbers := ∅,
    isReady := false, hasWon := false, winTime := none, score := 0 }

/-- A second registered player before round start. -/
def plB : GamePlayer :=
  { id := "b", name := "B", board := [], markedNumbers := ∅,
    isReady := false, hasWon := false, winTime := none, score := 0 }

/-- A 75ball game with two registered players, ready to start. -/
def twoPlayer75 : Game :=
  { id := "g5", roomCode := "r5", type := "75ball",
    players := [("a", plA), ("b", plB)], calledNumbers := [],
    currentNumber := none, gameStarted := false, gameEnded := false,
    winner := none, winPattern := none, boardSeed := 42,
    settings := settings75 }

/-- A registered player of the second ready-to-start game. -/
def plC : GamePlayer :=
  { id := "c", name := "C", board := [], markedNumbers := ∅,
    isReady := false, hasWon := false, winTime := none, score := 0 }

/-- A second registered player of that game. -/
def plD : GamePlayer :=
  { id := "d", name := "D", board := [], markedNumbers := ∅,
    isReady := false, hasWon := false, winTime := none, score := 0 }

/-- Another 75ball game with two registered players, ready to start. -/
def twoPlayer75b : Game :=
  { id := "g6", roomCode := "r6", type := "75ball",
    players := [("c", plC), ("d", plD)], calledNumbers := [],
    currentNumber := none, gameStarted := false, gameEnded := false,
    winner := none, winPattern := none, boardSeed := 9,
    settings := settings75 }

/-- An arbitrary fixed Math.random oracle. -/
def s01W : Nat → ℚ := fun _ => 0

/-- A create-room request body. -/
def dataW : CreateRoomData :=
  { hostName := "h", roomName := "rm", maxPlayers := 4,
    gameType := "75ball", stake := 100 }

/-- Create a room, attach one player over WebSocket, then hit the
game-start API route for the created room. -/
def cmdsW : List Command :=
  [Command.apiCreateRoom dataW "rid" "cw" "pid" 0,
   Command.wsJoin "cw" "p1",
   Command.apiGameStart "cw"]

/-- The state the server reaches after cmdsW. -/
def stW : SystemState := (run s01W 2 cmdsW initState).getD initState

/-- The empty RoomManager state. -/
def rs0 : RoomsState := { rooms := [], roomCodes := [] }

/-- A create-room request by a host named Alice. -/
def dataHost : CreateRoomData :=
  { hostName := "Alice", roomName := "lobby", maxPlayers := 4,
    gameType := "75ball", stake := 10 }

/-- The RoomManager state after creating Alice's room (roomId rid-1,
code c7). -/
def rsCreated : RoomsState := (createRoom rs0 dataHost "rid-1" "c7" "pid0" 0).2

/-- The state after the first player p1 attaches to that room. -/
def rsJoined : RoomsState := addPlayerToRoom rsCreated "c7" "p1"

/-- A create-room request with maxPlayers below 2 and a negative
stake. -/
def badData : CreateRoomData :=
  { hostName := "h", roomName := "rm", maxPlayers := 0,
    gameType := "75ball", stake := -5 }

/-
  Helper lemmas.
-/

theorem mapGet_mapSet {α : Type} (m : List (String × α)) (k : String)
    (v : α) : mapGet (mapSet m k v) k = some v := by
  induction m with
  | nil => simp [mapGet, mapSet]
  | cons a t ih =>
    by_cases hk : a.1 == k
    · simp [mapGet, mapSet, hk, List.find?_cons]
    · have hk' : (a.1 == k) = false := by simpa using hk
      simpa [mapGet, mapSet, hk', List.find?_cons] using ih

/-- With a constant generator the distinct-draw loop can never collect a
second value: from the empty set or from the singleton of the generated
value it runs until the fuel is gone. -/
theorem fillLoop_const (v : Int) (target : Nat) (ht : 2 ≤ target) :
    ∀ fuel k, fillLoop (fun _ => v) target fuel k [] = none ∧
      fillLoop (fun _ => v) target fuel k [v] = none := by
  intro fuel
  induction fuel with
  | zero =>
    intro k
    constructor <;> simp [fillLoop] <;> omega
  | succ n ih =>
    intro k
    have h0 : ([] : List Int).length < target := by simp; omega
    have h1 : ([v] : List Int).length < target := by simp; omega
    constructor
    · rw [fillLoop, if_pos h0]
      simpa [setAdd] using (ih (k + 1)).2
    · rw [fillLoop, if_pos h1]
      simpa [setAdd] using (ih (k + 1)).2

/-- A 75ball column group never finishes: the first column loop already
fails to terminate. -/
theorem gen75Cols_cons_none (rand : Int → Int → Int) (fuel : Nat)
    (mi ma : Int) (rest : List (Int × Int)) :
    gen75Cols rand fuel ((mi, ma) :: rest) = none := by
  rw [gen75Cols, (fillLoop_const (rand mi ma) 5 (by omega) fuel 0).1]

theorem generate75BallBoard_none (rand : Int → Int → Int) (fuel : Nat) :
    generate75BallBoard rand fuel = none := by
  rw [generate75BallBoard, columns75, gen75Cols_cons_none]

theorem generate30BallBoard_none (rand : Int → Int → Int) (fuel : Nat) :
    generate30BallBoard rand fuel = none := by
  rw [generate30BallBoard, (fillLoop_const (rand 1 30) 9 (by omega) fuel 0).1]
  rfl

theorem generateBoard_75ball_none (s01 : Nat → ℚ) (seed fuel : Nat) :
    generateBoard s01 "75ball" seed fuel = none :=
  generate75BallBoard_none _ fuel

theorem generateBoard_30ball_none (s01 : Nat → ℚ) (seed fuel : Nat) :
    generateBoard s01 "30ball" seed fuel = none := by
  have h : generateBoard s01 "30ball" seed fuel =
      generate30BallBoard
        (fun mi ma => ⌊s01 seed * ((ma - mi + 1 : Int) : ℚ)⌋ + mi) fuel := rfl
  rw [h, generate30BallBoard_none]

theorem generateBoard_pattern_none (s01 : Nat → ℚ) (seed fuel : Nat) :
    generateBoard s01 "pattern" seed fuel = none := by
  have h : generateBoard s01 "pattern" seed fuel =
      generate75BallBoard
        (fun mi ma => ⌊s01 seed * ((ma - mi + 1 : Int) : ℚ)⌋ + mi) fuel := rfl
  rw [h, generate75BallBoard_none]

/-- A successful rejection draw is never a previously called number. -/
theorem drawLoop_not_mem (u : Nat → ℚ) (maxN : Int) (called : List Int) :
    ∀ fuel k n, drawLoop u maxN called fuel k = some n → n ∉ called := by
  intro fuel
  induction fuel with
  | zero => intro k n h; simp [drawLoop] at h
  | succ f ih =>
    intro k n h
    rw [drawLoop] at h
    split at h
    · exact ih (k + 1) n h
    · cases h
      assumption

/-- None of the pattern names configured for a pattern-type room is
recognized by checkPattern, so win detection over that list never
fires. -/
theorem checkForWin_patternList (board : List Int) (marked : Finset Int) :
    checkForWin board marked (getWinPatterns "pattern") = none := rfl

/-- On a game configured with the pattern-variant win-pattern list,
markNumber never changes the end-of-round fields or the settings. -/
theorem markNumber_patternList_inert (now : Nat) (g : Game) (pid : String)
    (n : Int) (h : g.settings.winPatterns = getWinPatterns "pattern") :
    (markNumber now g pid n).2.gameEnded = g.gameEnded ∧
    (markNumber now g pid n).2.winner = g.winner ∧
    (markNumber now g pid n).2.winPattern = g.winPattern ∧
    (markNumber now g pid n).2.settings = g.settings := by
  cases hs : g.gameStarted with
  | false => simp [markNumber, hs]
  | true =>
    cases hp : mapGet g.players pid with
    | none => simp [markNumber, hs, hp]
    | some pl => simp [markNumber, hs, hp, h, checkForWin_patternList]

theorem applyMarks_patternList (ms : List (Nat × String × Int)) :
    ∀ g : Game, g.settings.winPatterns = getWinPatterns "pattern" →
    (applyMarks g ms).gameEnded = g.gameEnded ∧
    (applyMarks g ms).winner = g.winner ∧
    (applyMarks g ms).winPattern = g.winPattern ∧
    (applyMarks g ms).settings = g.settings := by
  induction ms with
  | nil => intro g h; exact ⟨rfl, rfl, rfl, rfl⟩
  | cons m ms ih =>
    intro g h
    have h1 := markNumber_patternList_inert m.1 g m.2.1 m.2.2 h
    have h2 := ih (markNumber m.1 g m.2.1 m.2.2).2 (by rw [h1.2.2.2, h])
    rw [applyMarks]
    exact ⟨h2.1.trans h1.1, h2.2.1.trans h1.2.1,
      h2.2.2.1.trans h1.2.2.1, h2.2.2.2.trans h1.2.2.2⟩

/-- No dispatch step ever puts an entry into the games map: no handler
calls createGame, and the game-start route on an empty games map answers
without mutating it. -/
theorem step_games_nil (s01 : Nat → ℚ) (fuel : Nat)
    (st st1 : SystemState) (c : Command) (h : st.games = [])
    (hs : step s01 fuel st c = some st1) : st1.games = [] := by
  cases c with
  | apiCreateRoom data rid code pid now =>
    rw [step] at hs
    by_cases hc : code ∈ st.roomsSt.roomCodes
    · simp [hc] at hs
    · simp only [hc, if_neg, if_false, Option.some_inj] at hs
      rw [← hs]
      exact h
  | apiGameStart code =>
    rw [step, h] at hs
    simp [startGameM, mapGet] at hs
    rw [← hs]
  | wsJoin code pid =>
    rw [step] at hs
    cases hs
    exact h
  | wsLeave code pid =>
    rw [step] at hs
    cases hs
    exact h
  | wsDisconnect code pid =>
    rw [step] at hs
    cases hs
    exact h
  | apiJoinRoom code name =>
    rw [step] at hs; cases hs; exact h
  | apiPlayers => rw [step] at hs; cases hs; exact h
  | apiRooms => rw [step] at hs; cases hs; exact h
  | apiRoomInfo code => rw [step] at hs; cases hs; exact h
  | wsChat code => rw [step] at hs; cases hs; exact h
  | wsStartGame code pid => rw [step] at hs; cases hs; exact h
  | wsCallNumber code => rw [step] at hs; cases hs; exact h
  | wsMarkNumber code pid n => rw [step] at hs; cases hs; exact h
  | wsClaimWin code pid => rw [step] at hs; cases hs; exact h
  | wsPing => rw [step] at hs; cases hs; exact h
  | timerCleanup => rw [step] at hs; cases hs; simp [h]

theorem run_games_nil (s01 : Nat → ℚ) (fuel : Nat) :
    ∀ (cmds : List Command) (st st1 : SystemState), st.games = [] →
    run s01 fuel cmds st = some st1 → st1.games = [] := by
  intro cmds
  induction cmds with
  | nil =>
    intro st st1 h hr
    rw [run] at hr
    cases hr
    exact h
  | cons c cs ih =>
    intro st st1 h hr
    rw [run] at hr
    cases hstep : step s01 fuel st c with
    | none => rw [hstep] at hr; simp at hr
    | some st2 =>
      rw [hstep] at hr
      exact ih st2 st1 (step_games_nil s01 fuel st st2 c h hstep) hr

/-
  Claim theorems.
-/

/-- C3: the claim says generateBoard terminates for every game type and
seed because each rejection loop makes progress. It does not: the
random(min, max) closure is constant per argument pair (seededRandom
increments only its local copy of the seed), so the distinct-draw loops
never collect a second value and board generation never returns for the
75ball, 30ball and pattern variants, whatever the seeded-random value
and however much fuel the loops are given. -/
theorem c3_generateBoard_diverges :
    (∀ (s01 : Nat → ℚ) (seed fuel : Nat),
      generateBoard s01 "75ball" seed fuel = none) ∧
    (∀ (s01 : Nat → ℚ) (seed fuel : Nat),
      generateBoard s01 "30ball" seed fuel = none) ∧
    (∀ (s01 : Nat → ℚ) (seed fuel : Nat),
      generateBoard s01 "pattern" seed fuel = none) :=
  ⟨generateBoard_75ball_none, generateBoard_30ball_none,
   generateBoard_pattern_none⟩

/-- C4: the claim says startGame fails with the three stated errors and
succeeds exactly once with at least 2 players. The three guard failures
are as claimed, but the success clause is unreachable for a 75ball game:
with 2 registered players startGame enters board generation, which never
terminates (none for every fuel bound), so the call never returns
success. -/
theorem c4_startGame_success_unreachable :
    ∀ (s01 : Nat → ℚ) (fuel : Nat),
      startGameM s01 fuel [] "r5" =
        some (StartResult.err "Game not found", []) ∧
      startGameM s01 fuel
          [("r5", { twoPlayer75 with gameStarted := true })] "r5" =
        some (StartResult.err "Game already started",
          [("r5", { twoPlayer75 with gameStarted := true })]) ∧
      startGameM s01 fuel
          [("r5", { twoPlayer75 with players := [("a", plA)] })] "r5" =
        some (StartResult.err "Need at least 2 players to start",
          [("r5", { twoPlayer75 with players := [("a", plA)] })]) ∧
      startGameM s01 fuel [("r5", twoPlayer75)] "r5" = none := by
  intro s01 fuel
  refine ⟨rfl, rfl, rfl, ?_⟩
  simp [startGameM, mapGet, twoPlayer75, assignBoards,
    generateBoard_75ball_none]

/-- C5: the claim says every registered player holds a board of the
variant-prescribed size after a successful startGame. On a 75ball game
with two registered players startGame never completes (board generation
does not terminate), so no player ever receives a board: both players
still hold the empty board addPlayerToGame gave them, and the start call
returns for no fuel bound. -/
theorem c5_no_boards_ever_assigned :
    plC.board = [] ∧ plD.board = [] ∧
    ∀ (s01 : Nat → ℚ) (fuel : Nat),
      startGameM s01 fuel [("r6", twoPlayer75b)] "r6" = none := by
  refine ⟨rfl, rfl, ?_⟩
  intro s01 fuel
  simp [startGameM, mapGet, twoPlayer75b, assignBoards,
    generateBoard_75ball_none]

/-- C2: in every state the server can reach through its API and
WebSocket dispatch, the GameManager games map is empty (no handler ever
calls createGame), so the game-start route answers the Game-not-found
failure for every room code, including codes of rooms registered by
createRoom. -/
theorem c2_games_map_always_empty :
    ∀ (s01 : Nat → ℚ) (fuel : Nat) (cmds : List Command)
      (st : SystemState), run s01 fuel cmds initState = some st →
      st.games = [] ∧
      ∀ roomCode : String, startGameM s01 fuel st.games roomCode =
        some (StartResult.err "Game not found", st.games) := by
  intro s01 fuel cmds st hr
  have hg : st.games = [] := run_games_nil s01 fuel cmds initState st rfl hr
  refine ⟨hg, fun roomCode => ?_⟩
  rw [hg]
  rfl

/-- Witness for C2: after creating a room with code cw, attaching a
player and hitting the game-start route, the games map is still empty
and startGame answers Game not found for every code. -/
theorem c2_games_map_always_empty_witness :
    stW.games = [] ∧
    ∀ roomCode : String, startGameM s01W 2 stW.games roomCode =
      some (StartResult.err "Game not found", stW.games) :=
  c2_games_map_always_empty s01W 2 cmdsW stW (by rfl)

/-- C8: the claim says createRoom rejects maxPlayers below 2 or a
negative stake with an InvalidConfig failure and registers no room.
Counterexample: the request with maxPlayers 0 and stake -5 succeeds and
registers the room. -/
theorem c8_counterexample :
    badData.maxPlayers < 2 ∧ badData.stake < 0 ∧
    (createRoom rs0 badData "rid-8" "c8" "pid8" 0).1.success = true ∧
    (createRoom rs0 badData "rid-8" "c8" "pid8" 0).1.message =
      "Room created successfully" ∧
    mapGet (createRoom rs0 badData "rid-8" "c8" "pid8" 0).2.rooms "c8" ≠
      none := by
  decide

/-- C8 amended: createRoom performs no validation of its configuration:
for every request, including maxPlayers below 2 or a negative stake, it
reports success and registers a room carrying exactly the requested
maxPlayers and stake. -/
theorem c8_createRoom_never_validates :
    ∀ (st : RoomsState) (data : CreateRoomData)
      (roomId roomCode playerId : String) (now : Nat),
      (createRoom st data roomId roomCode playerId now).1.success = true ∧
      ∃ room : Room,
        mapGet (createRoom st data roomId roomCode playerId now).2.rooms
          roomCode = some room ∧
        room.maxPlayers = data.maxPlayers ∧ room.stake = data.stake := by
  intro st data roomId roomCode playerId now
  exact ⟨rfl, ⟨_, mapGet_mapSet _ _ _, rfl, rfl⟩⟩

/-- C7: the claim says a non-empty room has exactly one host and the
first attaching player becomes host. In the code hostId is initialized
to the roomId placeholder, which is never the empty string, so the
host-promotion branch of addPlayerToRoom can never fire: after the
first player p1 attaches to the freshly created room, the room has one
player, zero players with the host flag, hostId still the placeholder
rid-1, and p1.isHost is false. -/
theorem c7_first_attach_not_host :
    (mapGet rsJoined.rooms "c7").map (fun r =>
      (r.players.length,
       (r.players.filter (fun q => q.2.isHost)).length,
       r.hostId,
       (mapGet r.players "p1").map Player.isHost)) =
    some (1, 0, "rid-1", some false) := by
  decide

/-- C1: the claim says that once gameEnded is true the winner and
winPattern never change, markNumber can record no second win and
callNumber returns null without drawing. callNumber does return null on
the ended round, but markNumber does not check gameEnded: on the ended
round endedGame, whose recorded winner is p1, marking 3 for p2 returns
true, mutates p2's marked set, and overwrites the winner with p2 — a
second recorded win. -/
theorem c1_ended_round_not_enforced :
    endedGame.gameEnded = true ∧
    endedGame.winner = some "p1" ∧
    (∀ (u : Nat → ℚ) (fuel : Nat),
      callNumber u fuel endedGame = (none, endedGame)) ∧
    (markNumber 0 endedGame "p2" 3).1 = true ∧
    (markNumber 0 endedGame "p2" 3).2.winner = some "p2" ∧
    (markNumber 0 endedGame "p2" 3).2.winPattern = some "row" ∧
    (mapGet (markNumber 0 endedGame "p2" 3).2.players "p2").map
      GamePlayer.markedNumbers =
      some (insert 3 ({1, 2, 4, 5} : Finset Int)) := by
  refine ⟨rfl, rfl, fun u fuel => rfl, ?_, ?_, ?_, ?_⟩ <;> decide

/-- C6: for every started, non-ended game, callNumber never returns a
number already in calledNumbers, and once calledNumbers covers the
variant range 1..maxNumber, every call (any oracle, any fuel) returns
null and leaves the game unchanged, so all subsequent calls return null
as well. -/
theorem c6_callNumber_fresh_and_exhausted :
    ∀ (u : Nat → ℚ) (fuel : Nat) (g : Game),
      g.gameStarted = true → g.gameEnded = false →
      (∀ n : Int, (callNumber u fuel g).1 = some n →
        n ∉ g.calledNumbers) ∧
      (Finset.Icc (1 : Int) (maxNumberFor g.type) ⊆
          g.calledNumbers.toFinset →
        ∀ (u1 : Nat → ℚ) (fuel1 : Nat),
          callNumber u1 fuel1 g = (none, g)) := by
  intro u fuel g hg he
  constructor
  · intro n hn
    rw [callNumber, hg, he] at hn
    simp only [Bool.not_true, Bool.or_false, Bool.false_eq_true,
      if_false] at hn
    cases hr : generateRandomNumber u fuel g.type g.calledNumbers with
    | none => rw [hr] at hn; simp at hn
    | some m =>
      rw [hr] at hn
      simp only [Option.some.injEq] at hn
      rw [generateRandomNumber] at hr
      split at hr
      · cases hr
      · exact hn ▸ drawLoop_not_mem u (maxNumberFor g.type)
          g.calledNumbers fuel 0 m hr
  · intro hcov u1 fuel1
    have hcard : (Finset.Icc (1 : Int) (maxNumberFor g.type)).card ≤
        g.calledNumbers.toFinset.card := Finset.card_le_card hcov
    rw [Int.card_Icc] at hcard
    have hlen : g.calledNumbers.toFinset.card ≤ g.calledNumbers.length :=
      List.toFinset_card_le _
    have hmax : maxNumberFor g.type ≤ (g.calledNumbers.length : Int) := by
      omega
    simp [callNumber, hg, he, generateRandomNumber, hmax]

/-- Witness for C6: a started 30ball round whose calledNumbers already
hold all of 1..30 answers null and stays unchanged. -/
theorem c6_callNumber_fresh_and_exhausted_witness :
    callNumber s01W 3 exhaustedGame = (none, exhaustedGame) :=
  (c6_callNumber_fresh_and_exhausted s01W 3 exhaustedGame rfl rfl).2
    (by decide) s01W 3

/-- C9: markNumber accepts any number for any known player of a started
game — it adds the number to the marked set and runs win detection
without consulting calledNumbers or the board. Consequently, on a round
where nothing was ever called, pre-marked q completes row 0 by marking
3 and is recorded as winner, and r can even mark 100, a number not on
any board. -/
theorem c9_markNumber_unvalidated :
    (∀ (now : Nat) (g : Game) (pid : String) (pl : GamePlayer) (n : Int),
      g.gameStarted = true → mapGet g.players pid = some pl →
      (markNumber now g pid n).1 = true ∧
      ∃ pl1 : GamePlayer,
        mapGet (markNumber now g pid n).2.players pid = some pl1 ∧
        pl1.markedNumbers = insert n pl.markedNumbers) ∧
    uncalledGame.calledNumbers = [] ∧
    (markNumber 0 uncalledGame "q" 3).2.gameEnded = true ∧
    (markNumber 0 uncalledGame "q" 3).2.winner = some "q" ∧
    (100 : Int) ∉ plR.board ∧
    (markNumber 0 uncalledGame "r" 100).1 = true := by
  refine ⟨?_, rfl, by decide, by decide, by decide, by decide⟩
  intro now g pid pl n hg hp
  cases hcw : checkForWin pl.board (insert n pl.markedNumbers)
      g.settings.winPatterns with
  | none =>
    refine ⟨?_, ⟨{ pl with markedNumbers := insert n pl.markedNumbers },
      ?_, rfl⟩⟩
    · simp [markNumber, hg, hp, hcw]
    · simp [markNumber, hg, hp, hcw, mapGet_mapSet]
  | some wp =>
    refine ⟨?_, ⟨{ pl with
      markedNumbers := insert n pl.markedNumbers
      hasWon := true
      winTime := some now
      score := pl.score +
        calculateScore g.settings.stake g.players.length }, ?_, rfl⟩⟩
    · simp [markNumber, hg, hp, hcw]
    · simp [markNumber, hg, hp, hcw, mapGet_mapSet]

/-- Witness for C9: marking 7 for the known player q of the started
round returns true and stores q's marked set with 7 inserted. -/
theorem c9_markNumber_unvalidated_witness :
    (markNumber 0 uncalledGame "q" 7).1 = true ∧
    ∃ pl1 : GamePlayer,
      mapGet (markNumber 0 uncalledGame "q" 7).2.players "q" = some pl1 ∧
      pl1.markedNumbers = insert 7 plQ.markedNumbers :=
  c9_markNumber_unvalidated.1 0 uncalledGame "q" plQ 7 rfl rfl

/-- C10: every win-pattern name configured for the 90ball and pattern
variants other than full-house (one-line, two-lines, x-pattern, frame,
postage-stamp, small-diamond) falls to checkPattern's default branch
and evaluates false, and consequently no sequence of markNumber calls
on a game configured with the pattern-variant list can ever set
gameEnded, winner or winPattern. -/
theorem c10_pattern_round_never_ends :
    (∀ (grid : List (List Int)) (marked : Finset Int) (p : String),
      p ∈ ["one-line", "two-lines", "x-pattern", "frame",
           "postage-stamp", "small-diamond"] →
      checkPattern grid marked p = false) ∧
    (∀ (g : Game) (ms : List (Nat × String × Int)),
      g.settings.winPatterns = getWinPatterns "pattern" →
      g.gameEnded = false → g.winner = none → g.winPattern = none →
      (applyMarks g ms).gameEnded = false ∧
      (applyMarks g ms).winner = none ∧
      (applyMarks g ms).winPattern = none) := by
  constructor
  · intro grid marked p hp
    simp only [List.mem_cons, List.not_mem_nil, or_false] at hp
    rcases hp with rfl | rfl | rfl | rfl | rfl | rfl <;> rfl
  · intro g ms h he hw hwp
    have h1 := applyMarks_patternList ms g h
    exact ⟨h1.1.trans he, h1.2.1.trans hw, h1.2.2.1.trans hwp⟩

/-- Witness for C10: x-pattern evaluates false on a concrete grid, and
two marks on the started pattern-variant round leave it unended with no
winner. -/
theorem c10_pattern_round_never_ends_witness :
    checkPattern (boardToGrid boardSeq) ({1, 2, 3} : Finset Int)
      "x-pattern" = false ∧
    (applyMarks patternGame [(0, "pp", 1), (1, "pp", 2)]).gameEnded =
      false ∧
    (applyMarks patternGame [(0, "pp", 1), (1, "pp", 2)]).winner =
      none := by
  have ha := c10_pattern_round_never_ends.1 (boardToGrid boardSeq)
    ({1, 2, 3} : Finset Int) "x-pattern" (by simp)
  have hb := c10_pattern_round_never_ends.2 patternGame
    [(0, "pp", 1), (1, "pp", 2)] rfl rfl rfl rfl
  exact ⟨ha, hb.1, hb.2.1⟩

end EthioBingo
